import Mathlib

/-!
Shallow embedding of the decision core of tm-notify (src/tm-notify/src/main.rs):
the game-state model (`ViewGameResponse`, `ActionRequired`), the change
detector (`is_game_changed`) and the notification composer
(`notification_message` with helpers `notify_full_turn`, `notify_lingering`).
Rust `Option<T>` becomes `Option T`, `i32` becomes `Int` (only compared for
equality, no overflow involved), `Result<T>` becomes `Except String T`
carrying the anyhow error message.
-/

/-- Rust struct `ActionRequired` (src/tm-notify/src/main.rs:55-61): one element
of the `action_required` list; every field is optional. -/
structure ActionRequired where
  from_faction : Option String
  type : Option String
  faction : Option String
  player : Option String
deriving DecidableEq, Repr

/-- Rust struct `ViewGameResponse` (src/tm-notify/src/main.rs:43-50): the typed
subset of the remote game document. -/
structure ViewGameResponse where
  finished : Option Int
  active_faction : Option String
  action_required : Option (List ActionRequired)
deriving DecidableEq, Repr

/-- The per-requirement full-turn test from the `any` closure in
`notification_message` (src/tm-notify/src/main.rs:197-203): true when
`type` is present and equals "full". -/
def isFullReq (it : ActionRequired) : Bool :=
  match it.type with
  | some t => t == "full"
  | none => false

/-- `action_required.iter().any(...)` (src/tm-notify/src/main.rs:197). -/
def is_full_turn (actions : List ActionRequired) : Bool :=
  actions.any isFullReq

/-- `notify_full_turn` (src/tm-notify/src/main.rs:217-222): the full-turn
message, or an error when no active faction is flagged. -/
def notify_full_turn (game : ViewGameResponse) : Except String String :=
  match game.active_faction with
  | some active_faction => Except.ok (active_faction ++ " should take their turn")
  | none => Except.error "full turn required but no active faction??"

/-- The faction-scoped phrasing of `notify_lingering`
(src/tm-notify/src/main.rs:230-237): the Rust `match &type[..]` over string
literals, rendered as the equivalent chain of equality tests. -/
def faction_line (faction t : String) : String :=
  if t = "dwelling" then faction ++ " should place a dwelling"
  else if t = "cult" then faction ++ " may advance on a cult track"
  else if t = "bonus" then faction ++ " should pick a bonus tile"
  else faction ++ " may " ++ t

/-- The player-scoped phrasing of `notify_lingering`
(src/tm-notify/src/main.rs:242-249). -/
def player_line (player t : String) : String :=
  if t = "faction" then player ++ " should pick a faction"
  else player ++ " may " ++ t

/-- The lines one requirement pushes in the loop body of `notify_lingering`
(src/tm-notify/src/main.rs:228-250): the faction-scoped line when `faction`
and `type` are both present, followed by the player-scoped line when `player`
and `type` are both present — the two `if let` blocks run independently. -/
def lingerLines (it : ActionRequired) : List String :=
  (match it.faction, it.type with
   | some faction, some t => [faction_line faction t]
   | _, _ => []) ++
  (match it.player, it.type with
   | some player, some t => [player_line player t]
   | _, _ => [])

/-- `notify_lingering` (src/tm-notify/src/main.rs:224-253): collect the lines
of every requirement in order and join them with newlines (`notify.join("\n")`). -/
def notify_lingering (actions_required : List ActionRequired) : String :=
  String.intercalate "\n" (actions_required.map lingerLines).flatten

/-- `notification_message` (src/tm-notify/src/main.rs:190-215): gameover when
`finished` matches `Some(1)`; otherwise, when `action_required` is present,
the full-turn message (if any requirement is a full turn) or the lingering
join, wrapped in `Some`; when `action_required` is absent, `None`. -/
def notification_message (game : ViewGameResponse) : Except String (Option String) :=
  if game.finished = some 1 then
    Except.ok (some "gameover")
  else
    match game.action_required with
    | some action_required =>
      if is_full_turn action_required then
        match notify_full_turn game with
        | Except.ok m => Except.ok (some m)
        | Except.error e => Except.error e
      else
        Except.ok (some (notify_lingering action_required))
    | none => Except.ok none

/-- The decision core of `is_game_changed` (src/tm-notify/src/main.rs:118-157):
`none` stands for the store's NoSuchKey signal, answered with `Ok(true)`
("assume this is a new game"); otherwise the deserialized cached game is
compared with the fresh one and the comparison result is returned, never an
error. -/
def is_game_changed (previous : Option ViewGameResponse)
    (current : ViewGameResponse) : Except String Bool :=
  match previous with
  | none => Except.ok true
  | some cached_game => if cached_game = current then Except.ok false else Except.ok true

/-- Explicit structural equality on requirements: field by field. -/
def actionEq (a b : ActionRequired) : Bool :=
  a.from_faction == b.from_faction && a.type == b.type &&
    a.faction == b.faction && a.player == b.player

/-- Explicit structural equality on requirement lists: same length, equal
elements in the same order (list-order-sensitive). -/
def actionsEq : List ActionRequired → List ActionRequired → Bool
  | [], [] => true
  | x :: xs, y :: ys => actionEq x y && actionsEq xs ys
  | _, _ => false

/-- Explicit deep structural equality on game states: field by field, with
`action_required` compared element-wise in order. -/
def gameStructEq (a b : ViewGameResponse) : Bool :=
  a.finished == b.finished && a.active_faction == b.active_faction &&
    (match a.action_required, b.action_required with
     | none, none => true
     | some xs, some ys => actionsEq xs ys
     | _, _ => false)

lemma isFullReq_iff (it : ActionRequired) :
    isFullReq it = true ↔ it.type = some "full" := by
  cases h : it.type <;> simp [isFullReq, h]

lemma is_full_turn_iff (acts : List ActionRequired) :
    is_full_turn acts = true ↔ ∃ a ∈ acts, a.type = some "full" := by
  simp [is_full_turn, List.any_eq_true, isFullReq_iff]

lemma actionEq_iff (a b : ActionRequired) : actionEq a b = true ↔ a = b := by
  cases a
  cases b
  simp [actionEq, ActionRequired.mk.injEq, and_assoc]

lemma actionsEq_iff (xs ys : List ActionRequired) : actionsEq xs ys = true ↔ xs = ys := by
  induction xs generalizing ys with
  | nil => cases ys <;> simp [actionsEq]
  | cons x xs ih => cases ys <;> simp [actionsEq, actionEq_iff, ih]

lemma gameStructEq_iff (a b : ViewGameResponse) : gameStructEq a b = true ↔ a = b := by
  cases a with
  | mk fa aa ra =>
    cases b with
    | mk fb ab rb =>
      cases ra <;> cases rb <;>
        simp [gameStructEq, actionsEq_iff, ViewGameResponse.mk.injEq, and_assoc]

lemma lingerLines_type_none (it : ActionRequired) (h : it.type = none) :
    lingerLines it = [] := by
  cases it
  simp_all [lingerLines]

/-- C1: for every game state whose `finished` field is present and equals 1,
`notification_message` returns `Ok(Some("gameover"))`, regardless of
`active_faction` and `action_required`. -/
theorem C1_finished_gameover (game : ViewGameResponse) (h : game.finished = some 1) :
    notification_message game = Except.ok (some "gameover") := by
  simp [notification_message, h]

/-- C1 witness: the spec's example state (`finished:1`, `active_faction:"cultists"`,
a `gameover` requirement) composes to `gameover`. -/
theorem C1_finished_gameover_witness :
    notification_message
      ⟨some 1, some "cultists", some [⟨none, some "gameover", none, none⟩]⟩ =
      Except.ok (some "gameover") :=
  C1_finished_gameover ⟨some 1, some "cultists", some [⟨none, some "gameover", none, none⟩]⟩ rfl

/-- C2: with `finished` not 1, `action_required` present containing a
requirement of kind "full", and `active_faction` present, the composed result
is exactly the single full-turn message — no lingering requirement contributes
a line. -/
theorem C2_full_turn_priority (game : ViewGameResponse) (acts : List ActionRequired)
    (af : String)
    (hfin : game.finished ≠ some 1)
    (har : game.action_required = some acts)
    (hfull : ∃ a ∈ acts, a.type = some "full")
    (haf : game.active_faction = some af) :
    notification_message game = Except.ok (some (af ++ " should take their turn")) := by
  have hft : is_full_turn acts = true := (is_full_turn_iff acts).mpr hfull
  simp [notification_message, hfin, har, hft, notify_full_turn, haf]

/-- C2 witness: the source's own `notify_full_turn` test vector — a lingering
leech requirement plus a full-turn requirement for the witches — composes to
the single full-turn message. -/
theorem C2_full_turn_priority_witness :
    notification_message
      ⟨none, some "witches",
        some [⟨some "cultists", some "leech", some "witches", none⟩,
              ⟨none, some "full", some "witches", none⟩]⟩ =
      Except.ok (some ("witches" ++ " should take their turn")) :=
  C2_full_turn_priority _ _ _ (by simp) rfl
    ⟨⟨none, some "full", some "witches", none⟩, by simp, rfl⟩ rfl

/-- C3 counterexample: with `finished` absent and `action_required` present but
empty, `notification_message` returns `Ok(Some(""))` — the empty join is
wrapped in `Some`, not turned into `None` — so present-but-empty is not
treated like absent and an empty message can be returned. -/
theorem C3_empty_join_counterexample :
    notification_message ⟨none, none, some []⟩ = Except.ok (some "") ∧
    notification_message ⟨none, none, some []⟩ ≠ Except.ok none := by
  refine ⟨rfl, ?_⟩
  simp [notification_message, is_full_turn, notify_lingering]

/-- C3 amended: with `finished` not 1, `notification_message` returns `None`
exactly when `action_required` is absent; when `action_required` is present
without a full-turn requirement and no requirement contributes a line (in
particular when it is empty), the result is `Some` of the empty string. -/
theorem C3_absent_vs_empty (game : ViewGameResponse)
    (hfin : game.finished ≠ some 1) :
    (game.action_required = none → notification_message game = Except.ok none) ∧
    (∀ acts, game.action_required = some acts → is_full_turn acts = false →
      (acts.map lingerLines).flatten = [] →
      notification_message game = Except.ok (some "")) := by
  constructor
  · intro har
    simp [notification_message, hfin, har]
  · intro acts har hft hlines
    simp [notification_message, hfin, har, hft, notify_lingering, hlines,
      String.intercalate]

/-- C3 witness: at a state with no `action_required` the amended theorem gives
`Ok(None)`, and at a state with an empty `action_required` it gives
`Ok(Some(""))`. -/
theorem C3_absent_vs_empty_witness :
    notification_message ⟨none, some "witches", none⟩ = Except.ok none ∧
    notification_message ⟨none, some "witches", some []⟩ = Except.ok (some "") :=
  ⟨(C3_absent_vs_empty ⟨none, some "witches", none⟩ (by simp)).1 rfl,
   (C3_absent_vs_empty ⟨none, some "witches", some []⟩ (by simp)).2 [] rfl rfl rfl⟩

/-- C4: `notification_message` returns an error exactly when `finished` is not
1, `action_required` is present with a requirement of kind "full", and
`active_faction` is absent — the consistency error of `notify_full_turn`, and
no other condition produces an error. -/
theorem C4_consistency_error (game : ViewGameResponse) :
    (∃ e, notification_message game = Except.error e) ↔
      (game.finished ≠ some 1 ∧
        ∃ acts, game.action_required = some acts ∧
          (∃ a ∈ acts, a.type = some "full") ∧
          game.active_faction = none) := by
  rcases game with ⟨fin, af, ar⟩
  by_cases hfin : fin = some 1
  · subst hfin
    simp [notification_message]
  · cases ar with
    | none => simp [notification_message, hfin]
    | some acts =>
      by_cases hft : is_full_turn acts = true
      · cases af with
        | none =>
          simp [notification_message, hfin, hft, notify_full_turn, (is_full_turn_iff acts).mp hft]
        | some a =>
          simp [notification_message, hfin, hft, notify_full_turn]
      · have hnofull : ¬ ∃ a ∈ acts, a.type = some "full" := fun hex =>
          hft ((is_full_turn_iff acts).mpr hex)
        simp [notification_message, hfin, eq_false_of_ne_true hft, hnofull]

/-- C5: the change detector on a stored snapshot answers structural (deep,
field-by-field, list-order-sensitive) inequality: it returns `Ok(true)` iff
the two parsed states are not structurally equal, structural equality
coincides with equality of the parsed values (so any two documents parsing to
structurally equal states — whatever their bytes — are judged unchanged), and
a state compared with itself is never reported changed. -/
theorem C5_change_is_structural (prev cur : ViewGameResponse) :
    (is_game_changed (some prev) cur = Except.ok true ↔ ¬ gameStructEq prev cur = true) ∧
    (gameStructEq prev cur = true ↔ prev = cur) ∧
    is_game_changed (some cur) cur = Except.ok false := by
  refine ⟨?_, gameStructEq_iff prev cur, ?_⟩
  · by_cases h : prev = cur
    · subst h
      simp [is_game_changed, gameStructEq_iff]
    · simp [is_game_changed, h, gameStructEq_iff]
  · simp [is_game_changed]

/-- C6: a requirement with both `faction` and `type` present contributes, as
its first line, the faction-scoped phrasing: "should place a dwelling" for
kind "dwelling", "may advance on a cult track" for "cult", "should pick a
bonus tile" for "bonus", and the generic "<faction> may <kind>" for every
other kind. -/
theorem C6_faction_phrasing (it : ActionRequired) (f t : String)
    (hf : it.faction = some f) (ht : it.type = some t) :
    (lingerLines it).head? = some (
      if t = "dwelling" then f ++ " should place a dwelling"
      else if t = "cult" then f ++ " may advance on a cult track"
      else if t = "bonus" then f ++ " should pick a bonus tile"
      else f ++ " may " ++ t) := by
  rcases it with ⟨ff, ty, fa, pl⟩
  simp_all [lingerLines, faction_line]

/-- C6 witness: the spec's example requirement `{faction:"mermaids",
kind:"dwelling"}` contributes the line "mermaids should place a dwelling". -/
theorem C6_faction_phrasing_witness :
    (lingerLines ⟨none, some "dwelling", some "mermaids", none⟩).head? =
      some "mermaids should place a dwelling" :=
  (C6_faction_phrasing ⟨none, some "dwelling", some "mermaids", none⟩
    "mermaids" "dwelling" rfl rfl).trans (by decide)

/-- C7 counterexample: a requirement with `faction`, `player` and `type` all
present contributes two lines, not the claimed single faction-scoped line —
the two `if let` blocks of `notify_lingering` are independent, not an
either/or precedence. -/
theorem C7_one_line_counterexample :
    lingerLines ⟨none, some "leech", some "witches", some "bob"⟩ =
      ["witches may leech", "bob may leech"] ∧
    notify_lingering [⟨none, some "leech", some "witches", some "bob"⟩] =
      "witches may leech\nbob may leech" := by
  constructor <;> rfl

/-- C7 amended: every requirement contributes at most two lines; a requirement
with `faction`, `player` and `type` all present contributes exactly the
faction-scoped line followed by the player-scoped line. -/
theorem C7_independent_lines (it : ActionRequired) (f p t : String)
    (hf : it.faction = some f) (hp : it.player = some p) (ht : it.type = some t) :
    lingerLines it = [faction_line f t, player_line p t] ∧
    ∀ jt : ActionRequired, (lingerLines jt).length ≤ 2 := by
  constructor
  · rcases it with ⟨ff, ty, fa, pl⟩
    simp_all [lingerLines]
  · intro jt
    rcases jt with ⟨ff, ty, fa, pl⟩
    cases ty <;> cases fa <;> cases pl <;> simp [lingerLines]

/-- C7 amended witness: a concrete requirement carrying faction "a", player
"b" and kind "x" yields both lines. -/
theorem C7_independent_lines_witness :
    lingerLines ⟨none, some "x", some "a", some "b"⟩ =
      [faction_line "a" "x", player_line "b" "x"] :=
  (C7_independent_lines ⟨none, some "x", some "a", some "b"⟩ "a" "b" "x" rfl rfl rfl).1

/-- C8: with no stored snapshot (the store's not-found signal, modelled as
`none`), the change detector answers `Ok(true)` for every current state — the
not-found signal is converted into "changed", never into an error. -/
theorem C8_no_snapshot_is_changed (s : ViewGameResponse) :
    is_game_changed none s = Except.ok true := rfl

/-- C9 counterexample: `finished = 2` is non-null and nonzero, yet the
composer does not treat the game as completed — with no `action_required` it
returns `Ok(None)`, not `Ok(Some("gameover"))`: only the exact sentinel 1
triggers the gameover message. -/
theorem C9_nonzero_counterexample :
    notification_message ⟨some 2, none, none⟩ = Except.ok none ∧
    notification_message ⟨some 2, none, none⟩ ≠ Except.ok (some "gameover") := by
  refine ⟨rfl, ?_⟩
  simp [notification_message]

/-- C9 amended: a present `finished` value other than 1 does not signal
completion at all — composition proceeds exactly as if `finished` were
absent. -/
theorem C9_only_one_means_finished (game : ViewGameResponse) (n : Int)
    (hn : game.finished = some n) (h1 : n ≠ 1) :
    notification_message game =
      notification_message { game with finished := none } := by
  rcases game with ⟨fin, af, ar⟩
  simp_all [notification_message, notify_full_turn]

/-- C9 amended witness: `finished = 2` composes exactly like an absent
`finished`. -/
theorem C9_only_one_means_finished_witness :
    notification_message ⟨some 2, some "witches", some []⟩ =
      notification_message ⟨none, some "witches", some []⟩ :=
  C9_only_one_means_finished ⟨some 2, some "witches", some []⟩ 2 rfl (by decide)

/-- C10: a requirement whose `type` is absent contributes no line even when
`faction` or `player` is present, and the lingering message is unchanged when
the requirements without a `type` are filtered out — the output is determined
entirely by the requirements whose `type` is present. -/
theorem C10_kind_absent_no_line :
    (∀ it : ActionRequired, it.type = none → lingerLines it = []) ∧
    (∀ acts : List ActionRequired,
      notify_lingering acts =
        notify_lingering (acts.filter fun it => it.type.isSome)) := by
  refine ⟨fun it h => lingerLines_type_none it h, ?_⟩
  intro acts
  unfold notify_lingering
  congr 1
  induction acts with
  | nil => rfl
  | cons x xs ih =>
    by_cases h : x.type.isSome
    · simp [List.filter_cons, h, ih]
    · have hx : x.type = none := Option.not_isSome_iff_eq_none.mp h
      simp [List.filter_cons, h, lingerLines_type_none x hx, ih]

/-- C10 witness: a requirement with faction and player but no kind yields no
line, and filtering it out leaves the lingering message unchanged. -/
theorem C10_kind_absent_no_line_witness :
    lingerLines ⟨some "cultists", none, some "witches", some "bob"⟩ = [] ∧
    notify_lingering [⟨some "cultists", none, some "witches", some "bob"⟩] =
      notify_lingering
        (List.filter (fun it => it.type.isSome)
          [⟨some "cultists", none, some "witches", some "bob"⟩]) :=
  ⟨C10_kind_absent_no_line.1 _ rfl, C10_kind_absent_no_line.2 _⟩
